import Mathlib

/-!
A shallow embedding of the acquisition pipeline of `downloader.py`:
the filename sanitizer, the path construction, the Spotify track and album
resolution with pagination, the per-track YouTube search and fetch, and the
batch loop of `process_spotify_link`.  External effects (the Spotify client,
subprocess invocations of yt-dlp, the filesystem) are passed in as
environment records of functions; a raised Python exception is modelled as
`Except.error` carrying the message, and a caught exception as the
corresponding `Except.ok` value of the handler's return.
-/

/-- Python strings are modelled as lists of characters. -/
abbrev Str := List Char

/-- The whitespace characters removed by Python str.strip (ASCII range). -/
def pyIsSpace (c : Char) : Bool :=
  decide (c = ' ' ∨ c = '\t' ∨ c = '\n' ∨ c = '\r' ∨ c = Char.ofNat 11 ∨ c = Char.ofNat 12)

/-- Python str.lstrip with no argument. -/
def pyLStrip (s : Str) : Str := s.dropWhile pyIsSpace

/-- Python str.rstrip with no argument. -/
def pyRStrip (s : Str) : Str := (s.reverse.dropWhile pyIsSpace).reverse

/-- Python str.strip with no argument: whitespace removed from both ends. -/
def pyStrip (s : Str) : Str := pyRStrip (pyLStrip s)

/-- Python str.replace for a single-character pattern `c`, replacing each
occurrence by the string `r`. -/
def replaceChar (c : Char) (r : Str) : Str → Str
  | [] => []
  | x :: xs => (if x = c then r else [x]) ++ replaceChar c r xs

/-- The double-quote character, written by code point to keep literals simple. -/
def dquote : Char := Char.ofNat 34

/-- The single-quote character, written by code point to keep literals simple. -/
def squote : Char := Char.ofNat 39

/-- The chain of replacements of sanitize_filename (downloader.py lines
272-273), applied in the source order: slash and backslash to dash, colon to
space-dash, asterisk to underscore, question mark deleted, double quote to
single quote, angle brackets and pipe to underscore. -/
def sanitizeCore (name : Str) : Str :=
  replaceChar '|' ['_']
    (replaceChar '>' ['_']
      (replaceChar '<' ['_']
        (replaceChar dquote [squote]
          (replaceChar '?' []
            (replaceChar '*' ['_']
              (replaceChar ':' [' ', '-']
                (replaceChar '\\' ['-']
                  (replaceChar '/' ['-'] name))))))))

/-- sanitize_filename (downloader.py lines 268-275): the replacement chain,
then truncation to 150 characters, then strip. -/
def sanitize_filename (name : Str) : Str :=
  pyStrip ((sanitizeCore name).take 150)

/-- The characters the specification calls illegal in filenames. -/
def forbiddenChar (c : Char) : Bool :=
  decide (c = '/' ∨ c = '\\' ∨ c = ':' ∨ c = '*' ∨ c = '?' ∨ c = dquote ∨
    c = '<' ∨ c = '>' ∨ c = '|')

/-- Membership after a single replacement step: an element of the output is
either a replacement character or an original character different from the
pattern. -/
theorem mem_replaceChar {c : Char} {r : Str} {x : Char} :
    ∀ {l : Str}, x ∈ replaceChar c r l → x ∈ r ∨ (x ∈ l ∧ x ≠ c)
  | [], h => absurd h (by simp [replaceChar])
  | y :: ys, h => by
    simp only [replaceChar, List.mem_append] at h
    rcases h with h | h
    · by_cases hyc : y = c
      · rw [if_pos hyc] at h
        exact Or.inl h
      · rw [if_neg hyc] at h
        rcases List.mem_singleton.mp h with rfl
        exact Or.inr ⟨List.mem_cons_self _ _, hyc⟩
    · rcases mem_replaceChar h with h2 | ⟨h2, h3⟩
      · exact Or.inl h2
      · exact Or.inr ⟨List.mem_cons_of_mem _ h2, h3⟩

/-- A replacement step is the identity when the pattern does not occur. -/
theorem replaceChar_eq_self {c : Char} {r : Str} :
    ∀ {l : Str}, (∀ x ∈ l, x ≠ c) → replaceChar c r l = l
  | [], _ => rfl
  | y :: ys, h => by
    simp only [replaceChar]
    rw [if_neg (h y (List.mem_cons_self y ys)),
      replaceChar_eq_self fun x hx => h x (List.mem_cons_of_mem y hx),
      List.singleton_append]

theorem aux_length_dropWhile_le {α : Type} (p : α → Bool) (l : List α) :
    (l.dropWhile p).length ≤ l.length := by
  have h2 : l = l.takeWhile p ++ l.dropWhile p := (List.takeWhile_append_dropWhile p l).symm
  calc (l.dropWhile p).length ≤ (l.takeWhile p).length + (l.dropWhile p).length :=
        Nat.le_add_left _ _
    _ = l.length := by rw [← List.length_append, ← h2]

theorem aux_dropWhile_head_false {α : Type} (p : α → Bool) :
    ∀ (l : List α) (c : α) (cs : List α), l.dropWhile p = c :: cs → p c = false
  | [], c, cs, h => by simp [List.dropWhile] at h
  | x :: xs, c, cs, h => by
    rw [List.dropWhile_cons] at h
    by_cases hx : p x = true
    · rw [if_pos hx] at h
      exact aux_dropWhile_head_false p xs c cs h
    · rw [if_neg hx] at h
      cases h
      exact Bool.not_eq_true _ ▸ (by simpa using hx)

theorem aux_dropWhile_dropWhile {α : Type} (p : α → Bool) (l : List α) :
    (l.dropWhile p).dropWhile p = l.dropWhile p := by
  cases h : l.dropWhile p with
  | nil => simp
  | cons c cs =>
    have hc := aux_dropWhile_head_false p l c cs h
    rw [List.dropWhile_cons, if_neg (by simp [hc])]

theorem aux_mem_dropWhile {α : Type} (p : α → Bool) (l : List α) (x : α)
    (h : x ∈ l.dropWhile p) : x ∈ l := by
  have h2 : l = l.takeWhile p ++ l.dropWhile p := (List.takeWhile_append_dropWhile p l).symm
  rw [h2]
  exact List.mem_append_right _ h

theorem aux_mem_take {α : Type} (n : Nat) (l : List α) (x : α)
    (h : x ∈ l.take n) : x ∈ l := by
  have h2 : l = l.take n ++ l.drop n := (List.take_append_drop n l).symm
  rw [h2]
  exact List.mem_append_left _ h

theorem aux_take_of_length_le {α : Type} :
    ∀ (n : Nat) (l : List α), l.length ≤ n → l.take n = l
  | _, [], _ => by simp
  | 0, x :: xs, h => by simp at h
  | Nat.succ n, x :: xs, h => by
    rw [List.take_succ_cons, aux_take_of_length_le n xs (by simpa using h)]

theorem aux_pyLStrip_pyLStrip (s : Str) : pyLStrip (pyLStrip s) = pyLStrip s :=
  aux_dropWhile_dropWhile pyIsSpace s

theorem aux_pyRStrip_pyRStrip (s : Str) : pyRStrip (pyRStrip s) = pyRStrip s := by
  unfold pyRStrip
  rw [List.reverse_reverse, aux_dropWhile_dropWhile]

theorem aux_pyRStrip_front (s : Str) : ∃ t, pyRStrip s ++ t = s := by
  refine ⟨(s.reverse.takeWhile pyIsSpace).reverse, ?_⟩
  unfold pyRStrip
  calc (s.reverse.dropWhile pyIsSpace).reverse ++ (s.reverse.takeWhile pyIsSpace).reverse
      = (s.reverse.takeWhile pyIsSpace ++ s.reverse.dropWhile pyIsSpace).reverse := by
        rw [List.reverse_append]
    _ = s.reverse.reverse := by rw [List.takeWhile_append_dropWhile]
    _ = s := List.reverse_reverse s

theorem aux_dropWhile_eq_self {α : Type} (p : α → Bool) (l : List α)
    (h : ∀ c cs, l = c :: cs → p c = false) : l.dropWhile p = l := by
  cases l with
  | nil => rfl
  | cons c cs => rw [List.dropWhile_cons, if_neg (by simp [h c cs rfl])]

theorem aux_lstripped_head {α : Type} (p : α → Bool) (l : List α)
    (h : l.dropWhile p = l) : ∀ c cs, l = c :: cs → p c = false := by
  intro c cs hl
  subst hl
  exact aux_dropWhile_head_false p (c :: cs) c cs h

theorem aux_pyLStrip_pyRStrip (s : Str) (h : pyLStrip s = s) :
    pyLStrip (pyRStrip s) = pyRStrip s := by
  obtain ⟨t, ht⟩ := aux_pyRStrip_front s
  apply aux_dropWhile_eq_self
  intro c cs hcc
  apply aux_lstripped_head pyIsSpace s h c (cs ++ t)
  rw [← ht, hcc, List.cons_append]

theorem aux_pyStrip_pyStrip (s : Str) : pyStrip (pyStrip s) = pyStrip s := by
  unfold pyStrip
  rw [aux_pyLStrip_pyRStrip (pyLStrip s) (aux_pyLStrip_pyLStrip s), aux_pyRStrip_pyRStrip]

theorem aux_pyStrip_length_le (s : Str) : (pyStrip s).length ≤ s.length := by
  unfold pyStrip pyRStrip pyLStrip
  calc ((pyLStrip s).reverse.dropWhile pyIsSpace).reverse.length
      = ((pyLStrip s).reverse.dropWhile pyIsSpace).length := List.length_reverse _
    _ ≤ (pyLStrip s).reverse.length := aux_length_dropWhile_le _ _
    _ = (pyLStrip s).length := List.length_reverse _
    _ ≤ s.length := aux_length_dropWhile_le _ _

theorem aux_mem_pyStrip (s : Str) (x : Char) (h : x ∈ pyStrip s) : x ∈ s := by
  unfold pyStrip pyRStrip at h
  rw [List.mem_reverse] at h
  have h2 := aux_mem_dropWhile _ _ _ h
  rw [List.mem_reverse] at h2
  exact aux_mem_dropWhile _ _ _ h2

/-- Unpacking of forbiddenChar being false into the nine disequalities. -/
theorem not_forbidden_ne (x : Char) (h : forbiddenChar x = false) :
    x ≠ '/' ∧ x ≠ '\\' ∧ x ≠ ':' ∧ x ≠ '*' ∧ x ≠ '?' ∧ x ≠ dquote ∧
      x ≠ '<' ∧ x ≠ '>' ∧ x ≠ '|' := by
  unfold forbiddenChar at h
  have h2 := of_decide_eq_false h
  push_neg at h2
  exact h2

/-- No character of the replaced string is one of the forbidden characters. -/
theorem sanitizeCore_not_forbidden (s : Str) :
    ∀ x ∈ sanitizeCore s, forbiddenChar x = false := by
  intro x hx
  unfold sanitizeCore at hx
  rcases mem_replaceChar hx with h | ⟨hx, h9⟩
  · rcases List.mem_singleton.mp h with rfl
    decide
  rcases mem_replaceChar hx with h | ⟨hx, h8⟩
  · rcases List.mem_singleton.mp h with rfl
    decide
  rcases mem_replaceChar hx with h | ⟨hx, h7⟩
  · rcases List.mem_singleton.mp h with rfl
    decide
  rcases mem_replaceChar hx with h | ⟨hx, h6⟩
  · rcases List.mem_singleton.mp h with rfl
    decide
  rcases mem_replaceChar hx with h | ⟨hx, h5⟩
  · simp at h
  rcases mem_replaceChar hx with h | ⟨hx, h4⟩
  · rcases List.mem_singleton.mp h with rfl
    decide
  rcases mem_replaceChar hx with h | ⟨hx, h3⟩
  · rcases List.mem_cons.mp h with rfl | h
    · decide
    rcases List.mem_singleton.mp h with rfl
    decide
  rcases mem_replaceChar hx with h | ⟨hx, h2⟩
  · rcases List.mem_singleton.mp h with rfl
    decide
  rcases mem_replaceChar hx with h | ⟨hx, h1⟩
  · rcases List.mem_singleton.mp h with rfl
    decide
  unfold forbiddenChar
  exact decide_eq_false (by tauto)

/-- sanitize_filename leaves no forbidden character in its output. -/
theorem sanitize_filename_not_forbidden (s : Str) :
    ∀ x ∈ sanitize_filename s, forbiddenChar x = false := by
  intro x hx
  unfold sanitize_filename at hx
  exact sanitizeCore_not_forbidden s x (aux_mem_take 150 _ x (aux_mem_pyStrip _ x hx))

/-- sanitize_filename output is at most 150 characters long. -/
theorem sanitize_filename_length_le (s : Str) : (sanitize_filename s).length ≤ 150 := by
  unfold sanitize_filename
  calc (pyStrip ((sanitizeCore s).take 150)).length
      ≤ ((sanitizeCore s).take 150).length := aux_pyStrip_length_le _
    _ ≤ 150 := by rw [List.length_take]; exact min_le_left _ _

/-- sanitize_filename output carries no leading or trailing whitespace. -/
theorem sanitize_filename_stripped (s : Str) :
    pyStrip (sanitize_filename s) = sanitize_filename s := by
  unfold sanitize_filename
  exact aux_pyStrip_pyStrip _

/-- The replacement chain is the identity on a string without forbidden
characters. -/
theorem sanitizeCore_eq_self (s : Str) (h : ∀ x ∈ s, forbiddenChar x = false) :
    sanitizeCore s = s := by
  unfold sanitizeCore
  rw [replaceChar_eq_self (fun x hx => (not_forbidden_ne x (h x hx)).1),
    replaceChar_eq_self (fun x hx => (not_forbidden_ne x (h x hx)).2.1),
    replaceChar_eq_self (fun x hx => (not_forbidden_ne x (h x hx)).2.2.1),
    replaceChar_eq_self (fun x hx => (not_forbidden_ne x (h x hx)).2.2.2.1),
    replaceChar_eq_self (fun x hx => (not_forbidden_ne x (h x hx)).2.2.2.2.1),
    replaceChar_eq_self (fun x hx => (not_forbidden_ne x (h x hx)).2.2.2.2.2.1),
    replaceChar_eq_self (fun x hx => (not_forbidden_ne x (h x hx)).2.2.2.2.2.2.1),
    replaceChar_eq_self (fun x hx => (not_forbidden_ne x (h x hx)).2.2.2.2.2.2.2.1),
    replaceChar_eq_self (fun x hx => (not_forbidden_ne x (h x hx)).2.2.2.2.2.2.2.2)]

/-- Claim C8: for every input string, sanitize_filename is defined (it is a
total function, and the empty string yields the empty string), its output
contains none of the characters slash, backslash, colon, asterisk, question
mark, double quote, angle brackets or pipe, has length at most 150, and has
no leading or trailing whitespace. -/
theorem C8_sanitize_contract (s : Str) :
    (sanitize_filename s).all (fun c => !forbiddenChar c) = true ∧
    (sanitize_filename s).length ≤ 150 ∧
    pyStrip (sanitize_filename s) = sanitize_filename s ∧
    sanitize_filename [] = [] := by
  refine ⟨?_, sanitize_filename_length_le s, sanitize_filename_stripped s, by decide⟩
  rw [List.all_eq_true]
  intro x hx
  simp [sanitize_filename_not_forbidden s x hx]

/-- Claim C9: sanitize_filename is idempotent. -/
theorem C9_sanitize_idempotent (s : Str) :
    sanitize_filename (sanitize_filename s) = sanitize_filename s := by
  have step : sanitize_filename (sanitize_filename s)
      = pyStrip ((sanitizeCore (sanitize_filename s)).take 150) := rfl
  rw [step, sanitizeCore_eq_self _ (sanitize_filename_not_forbidden s),
    aux_take_of_length_le _ _ (sanitize_filename_length_le s),
    sanitize_filename_stripped]

/-- Python str.join semantics: concatenation with `sep` between elements. -/
def pyJoin (sep : Str) : List Str → Str
  | [] => []
  | [x] => x
  | x :: y :: rest => x ++ sep ++ pyJoin sep (y :: rest)

/-- Python substring containment, as in the expression needle in hay. -/
def isSubstr (needle : Str) : Str → Bool
  | [] => needle.isEmpty
  | c :: rest => needle.isPrefixOf (c :: rest) || isSubstr needle rest

/-- The predicate for takeWhile stopping at a given character. -/
def notChar (c : Char) (x : Char) : Bool := decide (x ≠ c)

/-- Python s.split(c) followed by taking element 0: the text before the
first occurrence of `c`, the whole string when `c` is absent. -/
def beforeFirst (c : Char) (s : Str) : Str := s.takeWhile (notChar c)

/-- Python str.split on a single separator character. -/
def pySplit (sep : Char) : Str → List Str
  | [] => [[]]
  | c :: rest =>
    let r := pySplit sep rest
    if c = sep then [] :: r
    else (c :: r.headD []) :: r.tail

/-- Python str(int) for the natural track numbers used here. -/
def natToStr (n : Nat) : Str := (Nat.repr n).data

/-- Python str.zfill(2): pad on the left with zeros to width two. -/
def zfill2 (s : Str) : Str :=
  if s.length < 2 then List.replicate (2 - s.length) '0' ++ s else s

/-- os.path.join for the relative, non-empty components used by the
downloader: the components separated by a slash. -/
def pathJoin (a b : Str) : Str := a ++ '/' :: b

/-- The predicate filtering out artists with an absent or empty name, as in
the truthiness test of artist.get of the name key. -/
def nonEmptyStr (s : Str) : Bool := decide (s ≠ [])

/-- The state of the album entry of a track record.  `absent` models the key
not being present (the thin records returned by album listings), `falsy`
models a present but falsy value, and `present name` a truthy album object
with the given name entry (`none` when the name key is absent or falsy). -/
inductive AlbumField where
  | absent : AlbumField
  | falsy : AlbumField
  | present : Option Str → AlbumField
deriving DecidableEq, Repr

/-- A Spotify track record as consumed by process_spotify_link.  `name` is
the name entry (none when absent), `artists` the list of artist names (an
empty string modelling an artist whose name entry is absent or falsy),
`track_number` the track_number entry, and `id` the id entry (none when
absent or falsy). -/
structure SpotifyTrack where
  name : Option Str
  artists : List Str
  albumField : AlbumField
  track_number : Option Nat
  id : Option Str
deriving DecidableEq, Repr

/-- One page of an album track listing: its items and its next cursor
(`none` models a falsy next entry, ending the pagination loop). -/
structure Page where
  items : List SpotifyTrack
  next : Option Str
deriving DecidableEq, Repr

/-- The result of a completed subprocess.run call. -/
structure SubprocResult where
  returncode : Int
  stdout : Str
  stderr : Str
deriving DecidableEq, Repr

/-- The filesystem and yt-dlp environment of
download_youtube_track_for_spotify.  `makedirs` models os.makedirs (an error
is a raised OSError), `writeFile` models opening and writing a file (an
error is a raised IOError), `runYtDlp` models subprocess.run of the yt-dlp
download command on (output template, url) (an error is a raised
FileNotFoundError or other exception), and `pathExists` models
os.path.exists. -/
structure FsEnv where
  makedirs : Str → Except Str Unit
  writeFile : Str → Str → Except Str Unit
  runYtDlp : Str → Str → Except Str SubprocResult
  pathExists : Str → Bool

/-- The full external environment of process_spotify_link. `credentials`
models both Spotipy secrets being set, `spotipyInstalled` the import
succeeding, `spTrack` the sp.track call on a URL or id (Except.error models
a raised SpotifyException, ok none a falsy result), `spAlbum` the truthiness
of sp.album, `spAlbumTracks` the sp.album_tracks call, `spNext` the sp.next
call, and `ytSearch` the subprocess.run of the yt-dlp search command on the
query (Except.error models a raised exception such as FileNotFoundError). -/
structure Env where
  credentials : Bool
  spotipyInstalled : Bool
  spTrack : Str → Except Str (Option SpotifyTrack)
  spAlbum : Str → Except Str Bool
  spAlbumTracks : Str → Except Str (Option Page)
  spNext : Page → Except Str (Option Page)
  ytSearch : Str → Except Str SubprocResult
  fs : FsEnv

/-- Replace the filesystem component of an environment. -/
def setFs (e : Env) (f : FsEnv) : Env :=
  ⟨e.credentials, e.spotipyInstalled, e.spTrack, e.spAlbum, e.spAlbumTracks,
    e.spNext, e.ytSearch, f⟩

/-- The joined artist display names: the non-falsy artist names joined with
comma-space, with the Unknown Artist fallback when the join is empty. -/
def joinedArtistNames (artists : List Str) : Str :=
  let j := pyJoin (", ".data) (artists.filter nonEmptyStr)
  if j = [] then ("Unknown Artist").data else j

/-- The album display name: the album name when the album object and its
name entry are truthy, else Unknown Album. -/
def albumNameOf : AlbumField → Str
  | AlbumField.present (some n) => if n = [] then ("Unknown Album").data else n
  | _ => ("Unknown Album").data

/-- The YouTube search query built for a track (line 397):
the track name, the joined artist names, and the word audio. -/
def searchQueryOf (t : SpotifyTrack) : Str :=
  (t.name.getD (("Unknown Track").data)) ++ (" ".data) ++ joinedArtistNames t.artists
    ++ (" audio".data)

/-- The sanitized top-level artist folder (line 383): the joined artist
names are split on commas and the part before the first comma is
sanitized. -/
def artistFolderOf (artists : List Str) : Str :=
  sanitize_filename (beforeFirst ',' (joinedArtistNames artists))

/-- The filename stem passed to the fetch step (line 465): the track number
(defaulting to 1 when the key is missing, line 378) zero-padded to two
digits, a dash, and the sanitized track name. -/
def filenameStemOf (tn : Option Nat) (trackName : Str) : Str :=
  zfill2 (natToStr (tn.getD 1)) ++ (" - ".data) ++ sanitize_filename trackName

/-- The per-track output directory (lines 436 and 485):
base, Music, artist, album joined as a path. -/
def specificSongDir (base artist album : Str) : Str :=
  pathJoin (pathJoin (pathJoin base ("Music").data) artist) album

/-- The text written into the placeholder file in simulate mode (line 506). -/
def simulatedContent (stem url : Str) : Str :=
  ("This is a simulated audio file for ").data ++ [squote] ++ stem ++ [squote, '.', '\n']
    ++ ("Original YouTube URL: ").data ++ url ++ ['\n']

/-- The last non-empty line of a stream, as computed by the loop of lines
530-532: strip the stream, split on newlines, and keep the last line whose
strip is non-empty (itself stripped). -/
def lastNonEmptyLine (s : Str) : Option Str :=
  (pySplit '\n' (pyStrip s)).foldl
    (fun acc line => if pyStrip line = [] then acc else some (pyStrip line)) none

/-- download_youtube_track_for_spotify (lines 475-567).  The returned value
is what the Python function returns: the final path, or none for the
failure returns.  An Except.error is an exception escaping the function
(only its os.makedirs call can raise: the simulate branch catches IOError
and the real branch catches all exceptions of the subprocess call). -/
def download_youtube_track_for_spotify (env : FsEnv) (youtube_url base_dl_path
    artist_name album_name track_filename_stem : Str) (simulate_only : Bool) :
    Except Str (Option Str) :=
  match env.makedirs (specificSongDir base_dl_path artist_name album_name) with
  | Except.error e => Except.error e
  | Except.ok _ =>
    if simulate_only then
      let simulated_final_path :=
        pathJoin (specificSongDir base_dl_path artist_name album_name)
          (track_filename_stem ++ (".mp3").data)
      match env.writeFile simulated_final_path
          (simulatedContent track_filename_stem youtube_url) with
      | Except.ok _ => Except.ok (some simulated_final_path)
      | Except.error _ => Except.ok (some simulated_final_path)
    else
      let output_template :=
        pathJoin (specificSongDir base_dl_path artist_name album_name)
          (track_filename_stem ++ (".%(ext)s").data)
      match env.runYtDlp output_template youtube_url with
      | Except.error _ => Except.ok none
      | Except.ok result =>
        if result.returncode = 0 then
          match lastNonEmptyLine result.stdout with
          | some p =>
            if p ≠ [] ∧ env.pathExists p then Except.ok (some p)
            else Except.ok none
          | none => Except.ok none
        else Except.ok none

/-- The recorded outcome of one iteration of the track loop. `fetched`
records the fetch invocation with its arguments and return value; the other
constructors are the continue paths that never reach the fetch step. -/
inductive ItemOutcome where
  | skippedNoDetails : ItemOutcome
  | skippedNoId : ItemOutcome
  | locatorMiss : ItemOutcome
  | fetched : Str → Str → Str → Str → Option Str → ItemOutcome
deriving DecidableEq, Repr

/-- The body of the track loop after the thin-record resolution (lines
367-467): build names, search YouTube, on a hit create the directory and
invoke the fetch, on a miss continue. -/
def processResolved (env : Env) (base : Str) (simulate : Bool)
    (t : SpotifyTrack) : Except Str ItemOutcome :=
  match env.ytSearch (searchQueryOf t) with
  | Except.error e => Except.error e
  | Except.ok r =>
    if r.returncode = 0 ∧ pyStrip r.stdout ≠ [] then
      let youtube_video_url := beforeFirst '\n' (pyStrip r.stdout)
      let s_artist := artistFolderOf t.artists
      let s_album := sanitize_filename (albumNameOf t.albumField)
      match env.fs.makedirs (specificSongDir base s_artist s_album) with
      | Except.error e => Except.error e
      | Except.ok _ =>
        match download_youtube_track_for_spotify env.fs youtube_video_url base
            s_artist s_album
            (filenameStemOf t.track_number (t.name.getD (("Unknown Track").data)))
            simulate with
        | Except.error e => Except.error e
        | Except.ok res =>
          Except.ok (ItemOutcome.fetched youtube_video_url s_artist s_album
            (filenameStemOf t.track_number (t.name.getD (("Unknown Track").data))) res)
    else Except.ok ItemOutcome.locatorMiss

/-- One iteration of the track loop (lines 347-467), including the
thin-record resolution of lines 353-364: a record without an album key is
re-fetched by id (continue on a falsy result or missing id). -/
def processOneTrack (env : Env) (base : Str) (simulate : Bool)
    (t0 : SpotifyTrack) : Except Str ItemOutcome :=
  if t0.albumField = AlbumField.absent then
    match t0.id with
    | some tid =>
      match env.spTrack tid with
      | Except.error e => Except.error e
      | Except.ok (some full) => processResolved env base simulate full
      | Except.ok none => Except.ok ItemOutcome.skippedNoDetails
    | none => Except.ok ItemOutcome.skippedNoId
  else processResolved env base simulate t0

/-- The track loop.  The first component is the trace of recorded item
outcomes in order; the second is the exception that aborted the loop, when
one arose (the whole loop sits inside the try of line 305, so an exception
in one iteration ends the loop and is caught at lines 469-472). -/
def processTracks (env : Env) (base : Str) (simulate : Bool) :
    List SpotifyTrack → List ItemOutcome × Option Str
  | [] => ([], none)
  | t :: ts =>
    match processOneTrack env base simulate t with
    | Except.error e => ([], some e)
    | Except.ok o =>
      let r := processTracks env base simulate ts
      (o :: r.1, r.2)

/-- The pagination loop of lines 330-333: while the next cursor is truthy,
fetch the next page and extend with its items when both are truthy.  A
falsy sp.next result makes the next subscript raise.  `fuel` bounds the
number of iterations of the model; theorems supply enough of it. -/
def pageLoop (env : Env) : Nat → Page → List SpotifyTrack →
    Except Str (List SpotifyTrack)
  | 0, _, _ => Except.error ("model: page fuel exhausted").data
  | Nat.succ fuel, results, acc =>
    if results.next.isSome then
      match env.spNext results with
      | Except.error e => Except.error e
      | Except.ok none => Except.error ("TypeError: NoneType is not subscriptable").data
      | Except.ok (some r) =>
        pageLoop env fuel r (if r.items = [] then acc else acc ++ r.items)
    else Except.ok acc

/-- The metadata gathering of lines 305-339: a track URL yields its single
record, an album URL yields the album check, the first page of the track
listing and the pagination loop, anything else is unsupported.  `ok none`
models the early returns of the Python function (which return None without
processing any track). -/
def gatherTracks (env : Env) (fuel : Nat) (spotify_url : Str) :
    Except Str (Option (List SpotifyTrack)) :=
  if isSubstr ("/track/").data spotify_url then
    match env.spTrack spotify_url with
    | Except.error e => Except.error e
    | Except.ok (some t) => Except.ok (some [t])
    | Except.ok none => Except.ok none
  else if isSubstr ("/album/").data spotify_url then
    match env.spAlbum spotify_url with
    | Except.error e => Except.error e
    | Except.ok false => Except.ok none
    | Except.ok true =>
      match env.spAlbumTracks spotify_url with
      | Except.error e => Except.error e
      | Except.ok none => Except.ok none
      | Except.ok (some results) =>
        match pageLoop env fuel results results.items with
        | Except.error e => Except.error e
        | Except.ok tracks => Except.ok (some tracks)
  else Except.ok none

/-- Run Report as the specification defines it (spec section 3): an ordered
sequence of (descriptor, outcome) pairs for the batch together with counts
of succeeded and failed items.  This type follows the specification text,
not the source, and exists to state what the source orchestrator would have
to return. -/
structure RunReport where
  items : List (SpotifyTrack × ItemOutcome)
  succeeded : Nat
  failed : Nat
deriving Repr

/-- process_spotify_link (lines 277-472).  The first component is the model
trace of recorded item outcomes; the second component is the value the
Python function returns to its caller — every return statement of the
function is a bare return, and both exception handlers fall off the end, so
the function returns None on every path. -/
def process_spotify_link (env : Env) (fuel : Nat) (spotify_url base_output_path : Str)
    (simulate_only : Bool) : List ItemOutcome × Option RunReport :=
  if env.credentials = false then ([], none)
  else if env.spotipyInstalled = false then ([], none)
  else
    match gatherTracks env fuel spotify_url with
    | Except.error _ => ([], none)
    | Except.ok none => ([], none)
    | Except.ok (some tracks) =>
      if tracks.isEmpty then ([], none)
      else
        let r := processTracks env base_output_path simulate_only tracks
        (r.1, none)

/-- A full (album-carrying) track record used by the concrete batches. -/
def cT1 : SpotifyTrack :=
  ⟨some (("Song A").data), [("Artist X").data],
    AlbumField.present (some (("Album Y").data)), some 1, some (("id1").data)⟩

/-- A second full track record. -/
def cT2 : SpotifyTrack :=
  ⟨some (("Song B").data), [("Artist X").data],
    AlbumField.present (some (("Album Y").data)), some 2, some (("id2").data)⟩

/-- A third full track record, with no track number. -/
def cT3 : SpotifyTrack :=
  ⟨some (("Song C").data), [("Artist X").data],
    AlbumField.present (some (("Album Y").data)), none, some (("id3").data)⟩

/-- A filesystem environment where every call succeeds. -/
def okFs : FsEnv :=
  ⟨fun _ => Except.ok (), fun _ _ => Except.ok (),
    fun _ _ => Except.ok ⟨0, [], []⟩, fun _ => true⟩

/-- An environment with one two-track album page where every search and
every simulated fetch succeeds. -/
def cEnv1 : Env :=
  ⟨true, true,
    fun _ => Except.ok none,
    fun _ => Except.ok true,
    fun _ => Except.ok (some ⟨[cT1, cT2], none⟩),
    fun _ => Except.ok none,
    fun _ => Except.ok ⟨0, ("http://yt/v").data, []⟩,
    okFs⟩

/-- Claim C1 counterexample: a catalog-backed batch of two items is fully
attempted — the trace records two fetch outcomes — yet the orchestrator
returns None to its caller: no run report of (descriptor, outcome) pairs
with success and failure counts is returned. -/
theorem C1_counterexample :
    (process_spotify_link cEnv1 10 (("https://open.spotify.com/album/abc").data)
        (("/root").data) true).1.length = 2 ∧
    (process_spotify_link cEnv1 10 (("https://open.spotify.com/album/abc").data)
        (("/root").data) true).2 = none := by
  exact ⟨by decide, rfl⟩

/-- Claim C1 (amended): the orchestrator attempts the items and prints
per-item diagnostics, but on every input it returns None to its caller —
no run report of (descriptor, outcome) pairs nor success and failure counts
is ever returned. -/
theorem C1_no_run_report_returned (env : Env) (fuel : Nat) (url base : Str)
    (sim : Bool) : (process_spotify_link env fuel url base sim).2 = none := by
  unfold process_spotify_link
  repeat' split
  all_goals rfl

/-- Claim C2 counterexample: for a track with no track number the stem is
computed with the default number 1 and carries the numeric prefix, so it is
not the sanitized title alone. -/
theorem C2_counterexample :
    filenameStemOf none (("Intro").data) = ("01 - Intro").data ∧
    sanitize_filename (("Intro").data) = ("Intro").data ∧
    filenameStemOf none (("Intro").data) ≠ sanitize_filename (("Intro").data) := by
  exact ⟨by decide, by decide, by decide⟩

/-- Claim C2 (amended): the filename stem always carries the zero-padded
two-digit numeric prefix: a present track number n yields the prefix built
from n, and a missing track number defaults to 1 and yields the prefix
01 followed by the sanitized title, never the bare sanitized title. -/
theorem C2_stem_always_prefixed (tn : Option Nat) (name : Str) :
    filenameStemOf tn name
        = zfill2 (natToStr (tn.getD 1)) ++ (" - ".data) ++ sanitize_filename name ∧
    filenameStemOf none name = ("01 - ").data ++ sanitize_filename name := by
  exact ⟨rfl, rfl⟩

/-- A filesystem environment whose file writes raise an IOError. -/
def cFs4 : FsEnv :=
  ⟨fun _ => Except.ok (),
    fun _ _ => Except.error (("OSError: No space left on device").data),
    fun _ _ => Except.ok ⟨0, [], []⟩, fun _ => false⟩

/-- Claim C4, evaluation at the failing input: in simulate mode the
placeholder write raises an IOError, yet the fetch still returns the target
path — it reports success although the filesystem write failed, where the
claim requires a failure outcome. -/
theorem C4_sim_reports_success_after_failed_write :
    cFs4.writeFile
        (pathJoin (specificSongDir (("/root").data) (("Artist").data) (("Album").data))
          (("01 - Song.mp3").data))
        (simulatedContent (("01 - Song").data) (("http://yt/v").data))
      = Except.error (("OSError: No space left on device").data) ∧
    download_youtube_track_for_spotify cFs4 (("http://yt/v").data) (("/root").data)
        (("Artist").data) (("Album").data) (("01 - Song").data) true
      = Except.ok (some (pathJoin
          (specificSongDir (("/root").data) (("Artist").data) (("Album").data))
          (("01 - Song.mp3").data))) := by
  exact ⟨rfl, rfl⟩

/-- Whether an Except value is a non-exceptional result. -/
def exceptIsOk {ε α : Type} : Except ε α → Bool
  | Except.ok _ => true
  | Except.error _ => false

/-- An environment where the search subprocess raises for the second track
of the batch (yt-dlp absent at that point) and succeeds otherwise. -/
def cEnv3x : Env :=
  ⟨true, true,
    fun _ => Except.ok none,
    fun _ => Except.ok true,
    fun _ => Except.ok (some ⟨[cT1, cT2, cT3], none⟩),
    fun _ => Except.ok none,
    fun q => if q = searchQueryOf cT2 then
        Except.error (("FileNotFoundError: yt-dlp").data)
      else Except.ok ⟨0, ("http://yt/v").data, []⟩,
    okFs⟩

/-- Claim C3 counterexample: in a batch of three items an exception raised
while processing item 2 ends the loop — only item 1 is recorded, item 3 is
never processed, and the exception is caught by the batch-level handler. -/
theorem C3_counterexample :
    (processTracks cEnv3x (("/root").data) true [cT1, cT2, cT3]).1.length = 1 ∧
    (processTracks cEnv3x (("/root").data) true [cT1, cT2, cT3]).2
      = some (("FileNotFoundError: yt-dlp").data) := by
  exact ⟨by decide, by decide⟩

/-- Claim C3 (amended): a failure OUTCOME for item k (a locator miss or a
fetch that returns a failure value) does not prevent processing of item
k+1 — an item that yields an outcome lets the loop continue with exactly
that outcome prepended; and when no item raises, the trace covers the full
descriptor sequence.  An exception raised while processing an item,
however, aborts the remaining items (the try block of line 305 encloses
the whole loop). -/
theorem C3_failure_isolation :
    (∀ (env : Env) (base : Str) (sim : Bool) (t : SpotifyTrack)
        (ts : List SpotifyTrack) (o : ItemOutcome),
      processOneTrack env base sim t = Except.ok o →
      processTracks env base sim (t :: ts)
        = (o :: (processTracks env base sim ts).1, (processTracks env base sim ts).2)) ∧
    (∀ (env : Env) (base : Str) (sim : Bool) (tracks : List SpotifyTrack),
      (∀ t ∈ tracks, exceptIsOk (processOneTrack env base sim t) = true) →
      (processTracks env base sim tracks).1.length = tracks.length) := by
  constructor
  · intro env base sim t ts o h
    simp [processTracks, h]
  · intro env base sim tracks h
    induction tracks with
    | nil => rfl
    | cons t ts ih =>
      have ht := h t (List.mem_cons_self t ts)
      cases hp : processOneTrack env base sim t with
      | error e => rw [hp] at ht; simp [exceptIsOk] at ht
      | ok o =>
        simp only [processTracks, hp, List.length_cons]
        rw [ih fun x hx => h x (List.mem_cons_of_mem t hx)]

/-- An environment where the search finds nothing for the second track of
the batch (non-zero exit) and succeeds otherwise. -/
def cEnv3 : Env :=
  ⟨true, true,
    fun _ => Except.ok none,
    fun _ => Except.ok true,
    fun _ => Except.ok (some ⟨[cT1, cT2, cT3], none⟩),
    fun _ => Except.ok none,
    fun q => if q = searchQueryOf cT2 then
        Except.ok ⟨1, [], ("ERROR: no result").data⟩
      else Except.ok ⟨0, ("http://yt/v").data, []⟩,
    okFs⟩

/-- Claim C3 witness: in a batch of three where item 2 is a locator miss,
the trace still covers all three items. -/
theorem C3_witness :
    (processTracks cEnv3 (("/root").data) true [cT1, cT2, cT3]).1.length = 3 :=
  C3_failure_isolation.2 cEnv3 (("/root").data) true [cT1, cT2, cT3] (by decide)

/-- Claim C7: for a batch item whose search subprocess completes with no
usable result (non-zero exit or empty output — both no-result and
transport-level failure), the recorded outcome is exactly locatorMiss, the
fetch executor is never invoked (the result does not depend on the
filesystem and yt-dlp download environment at all), and processing
continues with the remaining items, whose results are unchanged. -/
theorem C7_locator_miss (env : Env) (base : Str) (sim : Bool)
    (t : SpotifyTrack) (ts : List SpotifyTrack) (r : SubprocResult)
    (halb : t.albumField ≠ AlbumField.absent)
    (hs : env.ytSearch (searchQueryOf t) = Except.ok r)
    (hmiss : ¬(r.returncode = 0 ∧ pyStrip r.stdout ≠ [])) :
    processOneTrack env base sim t = Except.ok ItemOutcome.locatorMiss ∧
    (∀ fs2 : FsEnv, processOneTrack (setFs env fs2) base sim t
        = Except.ok ItemOutcome.locatorMiss) ∧
    processTracks env base sim (t :: ts)
      = (ItemOutcome.locatorMiss :: (processTracks env base sim ts).1,
          (processTracks env base sim ts).2) := by
  have key : ∀ fs2 : FsEnv, processOneTrack (setFs env fs2) base sim t
      = Except.ok ItemOutcome.locatorMiss := by
    intro fs2
    unfold processOneTrack
    rw [if_neg halb]
    unfold processResolved
    have hs2 : (setFs env fs2).ytSearch (searchQueryOf t) = Except.ok r := hs
    rw [hs2]
    simp only [if_neg hmiss]
  have k0 : processOneTrack env base sim t = Except.ok ItemOutcome.locatorMiss :=
    key env.fs
  refine ⟨k0, key, ?_⟩
  simp [processTracks, k0]

/-- A full track record whose search yields no result. -/
def cT7 : SpotifyTrack :=
  ⟨some (("Obscure Song").data), [("Artist X").data],
    AlbumField.present (some (("Album Y").data)), some 4, some (("id7").data)⟩

/-- An environment where every search completes with a non-zero exit. -/
def cEnv7 : Env :=
  ⟨true, true,
    fun _ => Except.ok none,
    fun _ => Except.ok true,
    fun _ => Except.ok (some ⟨[cT7], none⟩),
    fun _ => Except.ok none,
    fun _ => Except.ok ⟨1, [], ("ERROR: no result").data⟩,
    okFs⟩

/-- Claim C7 witness: the concrete no-result search makes the item record
exactly a locator miss. -/
theorem C7_witness :
    processOneTrack cEnv7 (("/root").data) true cT7
      = Except.ok ItemOutcome.locatorMiss :=
  (C7_locator_miss cEnv7 (("/root").data) true cT7 []
    ⟨1, [], ("ERROR: no result").data⟩ (by decide) rfl (by decide)).1

/-- The accumulator of the last-line fold never holds an empty line. -/
theorem aux_foldl_lastline {p : Str} :
    ∀ (L : List Str) (acc : Option Str),
      (∀ q, acc = some q → q ≠ []) →
      L.foldl (fun a line => if pyStrip line = [] then a else some (pyStrip line)) acc
        = some p →
      p ≠ []
  | [], _, hacc, h => hacc p h
  | l :: ls, acc, hacc, h => by
    rw [List.foldl_cons] at h
    refine aux_foldl_lastline ls _ ?_ h
    intro q hq
    by_cases hl : pyStrip l = []
    · rw [if_pos hl] at hq
      exact hacc q hq
    · rw [if_neg hl] at hq
      injection hq with hq2
      rw [← hq2]
      exact hl

/-- A last non-empty line is non-empty. -/
theorem aux_lastNonEmptyLine_ne_nil (s : Str) (p : Str)
    (h : lastNonEmptyLine s = some p) : p ≠ [] := by
  unfold lastNonEmptyLine at h
  exact aux_foldl_lastline _ none (fun q hq => by cases hq) h

/-- Claim C6: in real mode, when the tool exits with code 0 the final path
is the last non-empty line of its stdout, and the outcome carries that path
exactly when the path exists on disk (otherwise the fetch reports a
failure). -/
theorem C6_real_mode_success (env : FsEnv) (url base artist album stem : Str)
    (r : SubprocResult) (p : Str)
    (hmk : env.makedirs (specificSongDir base artist album) = Except.ok ())
    (hrun : env.runYtDlp
        (pathJoin (specificSongDir base artist album) (stem ++ (".%(ext)s").data)) url
      = Except.ok r)
    (hrc : r.returncode = 0)
    (hlast : lastNonEmptyLine r.stdout = some p) :
    download_youtube_track_for_spotify env url base artist album stem false
      = Except.ok (if env.pathExists p then some p else none) := by
  have hp := aux_lastNonEmptyLine_ne_nil r.stdout p hlast
  unfold download_youtube_track_for_spotify
  rw [hmk]
  simp only [Bool.false_eq_true, if_false]
  rw [hrun]
  simp only [if_pos hrc]
  rw [hlast]
  show (if p ≠ [] ∧ env.pathExists p = true then Except.ok (some p) else Except.ok none)
      = Except.ok (if env.pathExists p then some p else none)
  by_cases hex : env.pathExists p = true
  · rw [if_pos ⟨hp, hex⟩, if_pos hex]
  · rw [if_neg (fun hc => hex hc.2), if_neg hex]

/-- A filesystem environment for the real-mode witness: the tool prints a
progress line and then the final path, which exists on disk. -/
def cFs6 : FsEnv :=
  ⟨fun _ => Except.ok (), fun _ _ => Except.ok (),
    fun _ _ => Except.ok
      ⟨0, ("downloading item").data ++ '\n' :: ("/m/f.mp3").data ++ ['\n'], []⟩,
    fun q => decide (q = ("/m/f.mp3").data)⟩

/-- Claim C6 witness: the concrete real-mode run returns the printed final
path. -/
theorem C6_witness :
    download_youtube_track_for_spotify cFs6 (("http://yt/v").data) (("/r").data)
        (("A").data) (("B").data) (("01 - S").data) false
      = Except.ok (some (("/m/f.mp3").data)) := by
  have h := C6_real_mode_success cFs6 (("http://yt/v").data) (("/r").data)
    (("A").data) (("B").data) (("01 - S").data)
    ⟨0, ("downloading item").data ++ '\n' :: ("/m/f.mp3").data ++ ['\n'], []⟩
    (("/m/f.mp3").data) rfl rfl rfl (by decide)
  rw [h]
  rfl

/-- The provider offers, after page `p`, exactly the chain `rest`: each page
with a truthy cursor is followed by the page sp.next returns, and the last
page has no cursor. -/
def chainFrom (env : Env) : Page → List Page → Prop
  | p, [] => p.next = none
  | p, q :: rest =>
    p.next.isSome = true ∧ env.spNext p = Except.ok (some q) ∧ chainFrom env q rest

/-- The pagination loop collects the items of every page of a finite chain,
in order, given enough fuel. -/
theorem aux_pageLoop_chain (env : Env) :
    ∀ (rest : List Page) (p : Page) (acc : List SpotifyTrack) (fuel : Nat),
      chainFrom env p rest → rest.length < fuel →
      pageLoop env fuel p acc = Except.ok (acc ++ (rest.map Page.items).join)
  | [], p, acc, fuel, hchain, hfuel => by
    cases fuel with
    | zero => exact absurd hfuel (by simp)
    | succ f =>
      unfold pageLoop
      rw [if_neg (by simp [chainFrom] at hchain; simp [hchain])]
      simp
  | q :: rest, p, acc, fuel, hchain, hfuel => by
    rcases hchain with ⟨hsome, hnext, hchain⟩
    cases fuel with
    | zero => exact absurd hfuel (by simp)
    | succ f =>
      unfold pageLoop
      rw [if_pos hsome, hnext]
      have hacc : (if q.items = [] then acc else acc ++ q.items) = acc ++ q.items := by
        by_cases hqe : q.items = []
        · rw [if_pos hqe, hqe, List.append_nil]
        · rw [if_neg hqe]
      show pageLoop env f q (if q.items = [] then acc else acc ++ q.items)
          = Except.ok (acc ++ ((q :: rest).map Page.items).join)
      rw [hacc, aux_pageLoop_chain env rest q (acc ++ q.items) f hchain
        (Nat.succ_lt_succ_iff.mp hfuel)]
      rw [List.append_assoc]
      rfl

/-- Claim C5: album resolution iterates through every page the provider
offers — while a next cursor is present it fetches the following page — so
the gathered descriptor sequence is the concatenation of all pages' items
and its length is the sum of the entry counts over all pages, not just the
first page. -/
theorem C5_pagination_complete (env : Env) (fuel : Nat) (url : Str)
    (p0 : Page) (rest : List Page)
    (hnt : isSubstr (("/track/").data) url = false)
    (hal : isSubstr (("/album/").data) url = true)
    (ha : env.spAlbum url = Except.ok true)
    (h0 : env.spAlbumTracks url = Except.ok (some p0))
    (hchain : chainFrom env p0 rest)
    (hfuel : rest.length < fuel) :
    gatherTracks env fuel url
      = Except.ok (some (((p0 :: rest).map Page.items).join)) ∧
    (((p0 :: rest).map Page.items).join).length
      = (((p0 :: rest).map Page.items).map List.length).sum := by
  constructor
  · unfold gatherTracks
    rw [if_neg (by simp [hnt]), if_pos hal]
    simp only [ha, h0]
    rw [aux_pageLoop_chain env rest p0 p0.items fuel hchain hfuel]
    rfl
  · exact List.length_join _

/-- The first page of the two-page witness album. -/
def cPage1 : Page := ⟨[cT1, cT2], some (("cursor2").data)⟩

/-- The second and final page of the two-page witness album. -/
def cPage2 : Page := ⟨[cT3], none⟩

/-- An environment offering an album split across the two witness pages. -/
def cEnv5 : Env :=
  ⟨true, true,
    fun _ => Except.ok none,
    fun _ => Except.ok true,
    fun _ => Except.ok (some cPage1),
    fun _ => Except.ok (some cPage2),
    fun _ => Except.ok ⟨0, ("http://yt/v").data, []⟩,
    okFs⟩

/-- Claim C5 witness: the two-page album yields all three tracks — the sum
across both pages, not just the first. -/
theorem C5_witness :
    gatherTracks cEnv5 3 (("https://open.spotify.com/album/abc").data)
      = Except.ok (some [cT1, cT2, cT3]) := by
  have h := (C5_pagination_complete cEnv5 3 (("https://open.spotify.com/album/abc").data)
    cPage1 [cPage2] (by decide) (by decide) rfl rfl ⟨rfl, rfl, rfl⟩ (by decide)).1
  rw [h]
  rfl

theorem aux_takeWhile_eq_self {α : Type} (p : α → Bool) :
    ∀ (l : List α), (∀ x ∈ l, p x = true) → l.takeWhile p = l
  | [], _ => rfl
  | x :: xs, h => by
    rw [List.takeWhile_cons, if_pos (h x (List.mem_cons_self x xs)),
      aux_takeWhile_eq_self p xs fun y hy => h y (List.mem_cons_of_mem x hy)]

theorem aux_takeWhile_append_of_all {α : Type} (p : α → Bool) (l1 l2 : List α)
    (h : ∀ x ∈ l1, p x = true) :
    (l1 ++ l2).takeWhile p = l1 ++ l2.takeWhile p := by
  induction l1 with
  | nil => simp
  | cons x xs ih =>
    rw [List.cons_append, List.takeWhile_cons, if_pos (h x (List.mem_cons_self x xs)),
      ih fun y hy => h y (List.mem_cons_of_mem x hy), List.cons_append]

theorem aux_takeWhile_append_of_stop {α : Type} (p : α → Bool) (l1 l2 : List α)
    (h : ∃ x ∈ l1, p x = false) :
    (l1 ++ l2).takeWhile p = l1.takeWhile p := by
  induction l1 with
  | nil =>
    rcases h with ⟨x, hx, _⟩
    simp at hx
  | cons y ys ih =>
    by_cases hy : p y = true
    · have h2 : ∃ x ∈ ys, p x = false := by
        rcases h with ⟨x, hx, hpx⟩
        rcases List.mem_cons.mp hx with rfl | hx
        · rw [hpx] at hy
          cases hy
        · exact ⟨x, hx, hpx⟩
      rw [List.cons_append, List.takeWhile_cons, if_pos hy, List.takeWhile_cons,
        if_pos hy, ih h2]
    · rw [List.cons_append, List.takeWhile_cons, if_neg hy, List.takeWhile_cons,
        if_neg hy]

/-- Joining a non-empty first element with any list is non-empty. -/
theorem aux_pyJoin_cons_ne_nil (sep : Str) (a : Str) (l : List Str)
    (ha : a ≠ []) : pyJoin sep (a :: l) ≠ [] := by
  cases l with
  | nil => simpa [pyJoin] using ha
  | cons b bs =>
    cases a with
    | nil => exact absurd rfl ha
    | cons c cs => simp [pyJoin]

/-- Claim C10: the top-level artist folder is computed by joining all artist
names with comma-space and keeping the text before the first comma of the
joined string: when the first artist name is non-empty and has no comma the
folder is the sanitized first artist name, and when the first artist name
itself contains a comma only the text before that comma is used. -/
theorem C10_artist_folder (a : Str) (rest : List Str) (ha : a ≠ []) :
    ((',' ∉ a → artistFolderOf (a :: rest) = sanitize_filename a) ∧
     (',' ∈ a → artistFolderOf (a :: rest)
        = sanitize_filename (beforeFirst ',' a))) := by
  have hfilter : (a :: rest).filter nonEmptyStr = a :: rest.filter nonEmptyStr := by
    rw [List.filter_cons, if_pos (by simp [nonEmptyStr, ha])]
  have hjoin : joinedArtistNames (a :: rest)
      = pyJoin (", ".data) (a :: rest.filter nonEmptyStr) := by
    unfold joinedArtistNames
    rw [hfilter, if_neg (aux_pyJoin_cons_ne_nil _ a _ ha)]
  constructor
  · intro hnc
    have hall : ∀ x ∈ a, notChar ',' x = true := by
      intro x hx
      simp only [notChar, decide_eq_true_eq]
      intro hxe
      subst hxe
      exact hnc hx
    unfold artistFolderOf beforeFirst
    rw [hjoin]
    cases hr : rest.filter nonEmptyStr with
    | nil =>
      show sanitize_filename ((pyJoin (", ".data) [a]).takeWhile (notChar ','))
          = sanitize_filename a
      rw [show pyJoin (", ".data) [a] = a from rfl, aux_takeWhile_eq_self _ a hall]
    | cons b bs =>
      show sanitize_filename ((pyJoin (", ".data) (a :: b :: bs)).takeWhile (notChar ','))
          = sanitize_filename a
      rw [show pyJoin (", ".data) (a :: b :: bs)
          = a ++ (", ".data) ++ pyJoin (", ".data) (b :: bs) from rfl,
        List.append_assoc, aux_takeWhile_append_of_all _ a _ hall,
        show ((", ".data) ++ pyJoin (", ".data) (b :: bs)).takeWhile (notChar ',')
          = [] from rfl, List.append_nil]
  · intro hc
    unfold artistFolderOf beforeFirst
    rw [hjoin]
    cases hr : rest.filter nonEmptyStr with
    | nil =>
      rw [show pyJoin (", ".data) [a] = a from rfl]
    | cons b bs =>
      rw [show pyJoin (", ".data) (a :: b :: bs)
          = a ++ (", ".data) ++ pyJoin (", ".data) (b :: bs) from rfl,
        List.append_assoc,
        aux_takeWhile_append_of_stop _ a _ ⟨',', hc, by simp [notChar]⟩]

/-- Claim C10 witness: a two-artist track uses the sanitized first artist
name as the folder, and a first artist name with a comma is cut at the
comma. -/
theorem C10_witness :
    artistFolderOf [("Queen").data, ("David Bowie").data]
        = sanitize_filename (("Queen").data) ∧
    artistFolderOf [("Tyler, The Creator").data]
        = sanitize_filename (("Tyler").data) := by
  constructor
  · exact (C10_artist_folder (("Queen").data) [("David Bowie").data]
      (by decide)).1 (by decide)
  · have h := (C10_artist_folder (("Tyler, The Creator").data) []
      (by decide)).2 (by decide)
    rw [h]
    rfl
